import Mathlib

/-!
Shallow embedding of the event-driven notification worker
(`app/models/event.py`, `worker/retry.py`, `worker/consumer.py`,
`app/services/redis_client.py`, `app/services/rate_limiter.py`).
Queues are Lean lists of JSON values (redis LPUSH conses at the head,
BRPOP pops from the tail), pure functions model the Python methods, and
exceptions are modelled with `Except`.
-/

namespace EventDriven

/-- A JSON-like value, the codomain of Python `json.loads` /
`model_dump(mode="json")`.  Objects are association lists of fields. -/
inductive JsonVal where
  | null
  | bool (b : Bool)
  | num (n : Int)
  | str (s : String)
  | arr (xs : List JsonVal)
  | obj (fields : List (String × JsonVal))
deriving Repr

/-- Python truthiness of a JSON-like value (`if not to_email:` etc.). -/
def JsonVal.truthy : JsonVal → Bool
  | .null => false
  | .bool b => b
  | .num n => n != 0
  | .str s => !s.isEmpty
  | .arr xs => !xs.isEmpty
  | .obj fs => !fs.isEmpty

/-- `EventType` enumeration from `app/models/event.py`. -/
inductive EventType where
  | USER_NOTIFICATION
  | SYSTEM_ALERT
  | EMAIL_NOTIFICATION
  | SMS_NOTIFICATION
deriving DecidableEq, Repr

/-- The string value of each `EventType` member. -/
def EventType.value : EventType → String
  | .USER_NOTIFICATION => "USER_NOTIFICATION"
  | .SYSTEM_ALERT => "SYSTEM_ALERT"
  | .EMAIL_NOTIFICATION => "EMAIL_NOTIFICATION"
  | .SMS_NOTIFICATION => "SMS_NOTIFICATION"

/-- Parse an `EventType` from its serialized string (pydantic validation
of the enum field). -/
def EventType.ofString (s : String) : Option EventType :=
  if s = "USER_NOTIFICATION" then some .USER_NOTIFICATION
  else if s = "SYSTEM_ALERT" then some .SYSTEM_ALERT
  else if s = "EMAIL_NOTIFICATION" then some .EMAIL_NOTIFICATION
  else if s = "SMS_NOTIFICATION" then some .SMS_NOTIFICATION
  else none

/-- The internal `Event` model (`app/models/event.py`).  The UUID and the
timestamp are kept abstract as their serialized string forms;
`retry_count` carries the pydantic constraint `ge=0` as `Nat`. -/
structure Event where
  event_id : String
  event_type : EventType
  user_id : String
  payload : List (String × JsonVal)
  created_at : String
  retry_count : Nat
  version : String
deriving Repr

/-- `Event.increment_retry`: `model_copy(update={"retry_count": retry_count + 1})`. -/
def Event.increment_retry (e : Event) : Event :=
  { e with retry_count := e.retry_count + 1 }

/-- A Python exception as seen by the classifier: its class name
(`type(error).__name__`) and its message (`str(error)`). -/
structure PyError where
  kind : String
  msg : String
deriving DecidableEq, Repr

/-- `FailureType` enumeration from `worker/retry.py`. -/
inductive FailureType where
  | transient
  | permanent
  | unknown
deriving DecidableEq, Repr

/-- The string value of each `FailureType` member. -/
def FailureType.value : FailureType → String
  | .transient => "transient"
  | .permanent => "permanent"
  | .unknown => "unknown"

/-- `RetryDecision` named tuple from `worker/retry.py`. -/
structure RetryDecision where
  should_retry : Bool
  reason : String
deriving DecidableEq, Repr

/-- Python `str.lower()` (ASCII case folding, as `String.toLower` does
character by character). -/
def pyLower (s : String) : String :=
  ⟨s.data.map Char.toLower⟩

/-- Does `pat` occur as a contiguous run somewhere in `s`? -/
def strContainsAux (pat : List Char) : List Char → Bool
  | [] => pat.isEmpty
  | c :: rest => pat.isPrefixOf (c :: rest) || strContainsAux pat rest

/-- `pat in s` for Python strings: `pat` occurs as a contiguous substring. -/
def strContains (s pat : String) : Bool :=
  strContainsAux pat.toList s.toList

/-- The transient-indicator vocabulary of `classify_failure`. -/
def transient_indicators : List String :=
  ["timeout", "connection", "temporary", "unavailable", "retry", "network"]

/-- The permanent-indicator vocabulary of `classify_failure`. -/
def permanent_indicators : List String :=
  ["validation", "invalid", "malformed", "not found", "unauthorized", "forbidden"]

/-- `RetryHandler` from `worker/retry.py`, holding the configured retry
budget (`Settings.max_retries`, default 3). -/
structure RetryHandler where
  max_retries : Nat
deriving Repr

/-- `RetryHandler.classify_failure`: message-substring checks first
(transient before permanent), then exception-kind checks, else unknown. -/
def classify_failure (error : PyError) : FailureType :=
  let error_message := pyLower error.msg
  if transient_indicators.any (fun ind => strContains error_message ind) then
    .transient
  else if permanent_indicators.any (fun ind => strContains error_message ind) then
    .permanent
  else if error.kind = "ConnectionError" ∨ error.kind = "TimeoutError" ∨
      error.kind = "OSError" then
    .transient
  else if error.kind = "ValueError" ∨ error.kind = "KeyError" ∨
      error.kind = "TypeError" then
    .permanent
  else
    .unknown

/-- `RetryHandler.should_retry`: permanent failures are never retried,
then the retry budget is checked, else retry with an attempt-counting
reason. -/
def RetryHandler.should_retry (h : RetryHandler) (event : Event)
    (error : PyError) : RetryDecision :=
  let failure_type := classify_failure error
  if failure_type = .permanent then
    { should_retry := false
      reason := "Permanent failure: " ++ error.kind ++ ": " ++ error.msg }
  else if h.max_retries ≤ event.retry_count then
    { should_retry := false
      reason := "Max retries (" ++ toString h.max_retries ++ ") exceeded" }
  else
    { should_retry := true
      reason := failure_type.value ++ " failure, retry " ++
        toString (event.retry_count + 1) ++ "/" ++ toString h.max_retries }

/-- Python `dict` lookup on a parsed JSON object, `fields[k]` as `Option`. -/
def jsonLookup (fields : List (String × JsonVal)) (k : String) : Option JsonVal :=
  (fields.find? (fun p => p.1 == k)).map (fun p => p.2)

/-- `Event.model_dump(mode="json")` / `model_dump_json` as a JSON value:
every field serialized in declaration order. -/
def encodeEvent (e : Event) : JsonVal :=
  .obj [("event_id", .str e.event_id),
        ("event_type", .str e.event_type.value),
        ("user_id", .str e.user_id),
        ("payload", .obj e.payload),
        ("created_at", .str e.created_at),
        ("retry_count", .num e.retry_count),
        ("version", .str e.version)]

/-- `Event.model_validate` on a parsed JSON value: every field must be
present with the right shape (`event_type` in the enumeration,
`retry_count` a non-negative integer), else a validation error. -/
def decodeEvent (j : JsonVal) : Except String Event :=
  match j with
  | .obj fields =>
    match jsonLookup fields "event_id", jsonLookup fields "event_type",
        jsonLookup fields "user_id", jsonLookup fields "payload",
        jsonLookup fields "created_at", jsonLookup fields "retry_count",
        jsonLookup fields "version" with
    | some (.str eid), some (.str ety), some (.str uid), some (.obj pl),
        some (.str cat), some (.num rc), some (.str ver) =>
      match EventType.ofString ety with
      | some t =>
        if 0 ≤ rc then
          Except.ok { event_id := eid, event_type := t, user_id := uid,
                      payload := pl, created_at := cat,
                      retry_count := rc.toNat, version := ver }
        else
          Except.error "validation error: retry_count must be >= 0"
      | none => Except.error "validation error: event_type not in enumeration"
    | _, _, _, _, _, _, _ =>
      Except.error "validation error: missing or mistyped field"
  | _ => Except.error "validation error: record is not an object"

/-- The two redis lists: the main queue and the dead-letter queue, each a
list of serialized records.  `LPUSH` conses at the head; `BRPOP` pops at
the tail, so head-cons / tail-pop is FIFO. -/
structure QState where
  queue : List JsonVal
  dlq : List JsonVal

/-- `RedisClient.enqueue_event`: LPUSH of the serialized event. -/
def enqueue_event (e : Event) (q : List JsonVal) : List JsonVal :=
  encodeEvent e :: q

/-- `RedisClient.dequeue_event` on the main queue: BRPOP the tail entry
(`Except.ok none` models a timeout on an empty queue), then parse and
validate it; a malformed record raises (`Except.error`). -/
def dequeue_event (q : List JsonVal) : Except String (Option (Event × List JsonVal)) :=
  match q.getLast? with
  | none => Except.ok none
  | some j =>
    match decodeEvent j with
    | Except.error s => Except.error s
    | Except.ok e => Except.ok (some (e, q.dropLast))

/-- The dead-letter record `{"event": ..., "reason": ...}` built by
`RedisClient.send_to_dlq`. -/
def encodeDlqEntry (e : Event) (reason : String) : JsonVal :=
  .obj [("event", encodeEvent e), ("reason", .str reason)]

/-- `RedisClient.send_to_dlq`: LPUSH of the wrapped record onto the DLQ. -/
def send_to_dlq (e : Event) (reason : String) (d : List JsonVal) : List JsonVal :=
  encodeDlqEntry e reason :: d

/-- `RedisClient.requeue_event`: enqueue `event.increment_retry()`. -/
def requeue_event (e : Event) (q : List JsonVal) : List JsonVal :=
  enqueue_event e.increment_retry q

/-- `EventConsumer._handle_failure`: run the retry policy once, then
requeue on a positive decision, else dead-letter with the decision's
reason. -/
def handle_failure (h : RetryHandler) (event : Event) (error : PyError)
    (s : QState) : QState :=
  let decision := h.should_retry event error
  if decision.should_retry then
    { s with queue := requeue_event event s.queue }
  else
    { s with dlq := send_to_dlq event decision.reason s.dlq }

/-- The settings fields read by the processor and the rate limiter
(`app/config.py`): SMTP credentials (empty string = unset), the daily
ceiling (default 20) and the alert destination (empty string = unset). -/
structure ProcSettings where
  smtp_user : String
  smtp_password : String
  daily_email_limit : Nat
  alert_email : String

/-- `EmailRateLimiter` state: today's date-scoped counter value in redis
and the process-local `_alert_sent_today` flag. -/
structure RLState where
  count : Nat
  alert_sent_today : Bool
deriving DecidableEq, Repr

/-- `EmailRateLimiter.can_send_email`: `get_today_count() < daily_email_limit`. -/
def can_send_email (settings : ProcSettings) (st : RLState) : Bool :=
  st.count < settings.daily_email_limit

/-- Result of `check_and_alert`: whether the notify side effect
(`email_service.send_email` to the alert address) was invoked, and the
limiter state afterwards. -/
structure AlertResult where
  notifyInvoked : Bool
  state : RLState
deriving DecidableEq, Repr

/-- `EmailRateLimiter.check_and_alert`: return immediately if already
alerted; otherwise, at or above the ceiling and with an alert address
configured, invoke the notify side effect and set the flag (the flag is
set only when the alert send did not raise; a raising send is caught and
logged). `alertSendOk` is the outcome of that external send. -/
def check_and_alert (settings : ProcSettings) (st : RLState)
    (alertSendOk : Bool) : AlertResult :=
  if st.alert_sent_today then
    { notifyInvoked := false, state := st }
  else if settings.daily_email_limit ≤ st.count then
    if settings.alert_email ≠ "" then
      if alertSendOk then
        { notifyInvoked := true, state := { st with alert_sent_today := true } }
      else
        { notifyInvoked := true, state := st }
    else
      { notifyInvoked := false, state := st }
  else
    { notifyInvoked := false, state := st }

/-- `EmailRateLimiter.record_email_sent` / `increment_count`: atomically
increment today's counter (the 48-hour key expiry is outside the model). -/
def record_email_sent (st : RLState) : RLState :=
  { st with count := st.count + 1 }

/-- `event.payload.get(k)` with Python's `None` for a missing key,
represented as `JsonVal.null` (both are falsy). -/
def payloadGet (payload : List (String × JsonVal)) (k : String) : JsonVal :=
  match jsonLookup payload k with
  | some v => v
  | none => .null

/-- `payload.get("to_email") or payload.get("email")`: Python `or`
falls through on a falsy left operand. -/
def extract_to_email (e : Event) : JsonVal :=
  let t := payloadGet e.payload "to_email"
  if t.truthy then t else payloadGet e.payload "email"

/-- What `NotificationProcessor.process` did: whether the real send was
invoked, whether the limit alert notify was invoked, and the limiter
state afterwards. -/
structure ProcResult where
  sendInvoked : Bool
  alertNotifyInvoked : Bool
  rl : RLState
deriving DecidableEq, Repr

/-- `NotificationProcessor.process`: extract the destination (falsy → log
and return), check SMTP configuration (unset → log and return), check the
daily rate limit (reached → `check_and_alert`, return), then perform the
send — only this step may raise (`sendOutcome`) — and on success record
the sent email.  `alertSendOk` is the outcome of the alert send inside
`check_and_alert` (caught there, never propagated). -/
def process (settings : ProcSettings) (rl : RLState) (event : Event)
    (sendOutcome : Except PyError Unit) (alertSendOk : Bool) :
    Except PyError ProcResult :=
  let to_email := extract_to_email event
  if ¬ to_email.truthy then
    Except.ok { sendInvoked := false, alertNotifyInvoked := false, rl := rl }
  else if settings.smtp_user = "" ∨ settings.smtp_password = "" then
    Except.ok { sendInvoked := false, alertNotifyInvoked := false, rl := rl }
  else if ¬ can_send_email settings rl then
    let r := check_and_alert settings rl alertSendOk
    Except.ok { sendInvoked := false, alertNotifyInvoked := r.notifyInvoked,
                rl := r.state }
  else
    match sendOutcome with
    | Except.error e => Except.error e
    | Except.ok _ =>
      Except.ok { sendInvoked := true, alertNotifyInvoked := false,
                  rl := record_email_sent rl }

/-- One iteration's dequeue outcome in `EventConsumer._consume_loop`:
a timeout (`None`), an event, a raised `asyncio.CancelledError`, or any
other exception raised by the dequeue call itself. -/
inductive DequeueOutcome where
  | timeout
  | item (e : Event)
  | transport_error (x : PyError)
  | cancelled

/-- The observable effect of one loop iteration: whether the error branch
logged, how long the iteration slept (`asyncio.sleep(1)` in the generic
except branch), and whether the loop exited. -/
structure StepEffect where
  logged_error : Bool
  sleep_seconds : Nat
  exits : Bool
deriving DecidableEq, Repr

/-- One iteration of `EventConsumer._consume_loop` given the dequeue
outcome: a stopped consumer exits; `CancelledError` breaks; any other
error from the dequeue call is logged, the loop sleeps 1 second and
continues; a timeout or a processed event just continues (processing
failures are handled inside `_process_event` and never reach here). -/
def consume_step (running : Bool) (o : DequeueOutcome) : StepEffect :=
  if ¬ running then
    { logged_error := false, sleep_seconds := 0, exits := true }
  else
    match o with
    | .cancelled => { logged_error := false, sleep_seconds := 0, exits := true }
    | .transport_error _ => { logged_error := true, sleep_seconds := 1, exits := false }
    | .timeout => { logged_error := false, sleep_seconds := 0, exits := false }
    | .item _ => { logged_error := false, sleep_seconds := 0, exits := false }

/-- A run of the consumer loop over a sequence of dequeue outcomes while
no stop was requested. -/
def consume_run (outcomes : List DequeueOutcome) : List StepEffect :=
  outcomes.map (consume_step true)

/-- One transition of the worker system over the two queues: a dequeue
timeout (no change), a producer enqueueing a fresh event
(`retry_count = 0`), a dequeued event processed successfully (dropped),
a dequeued event whose processing raised (handled by
`EventConsumer._handle_failure`), or a malformed tail record whose
parse raised inside `dequeue_event` (the popped record is lost and the
loop's generic except branch continues). -/
inductive Step (h : RetryHandler) : QState → QState → Prop where
  | dequeue_timeout (s : QState) : Step h s s
  | produce (s : QState) (e : Event) :
      e.retry_count = 0 → Step h s ⟨enqueue_event e s.queue, s.dlq⟩
  | process_ok (rest : List JsonVal) (j : JsonVal) (e : Event)
      (d : List JsonVal) :
      decodeEvent j = Except.ok e → Step h ⟨rest ++ [j], d⟩ ⟨rest, d⟩
  | process_failed (rest : List JsonVal) (j : JsonVal) (e : Event)
      (err : PyError) (d : List JsonVal) :
      decodeEvent j = Except.ok e →
      Step h ⟨rest ++ [j], d⟩ (handle_failure h e err ⟨rest, d⟩)
  | dequeue_malformed (rest : List JsonVal) (j : JsonVal) (s : String)
      (d : List JsonVal) :
      decodeEvent j = Except.error s → Step h ⟨rest ++ [j], d⟩ ⟨rest, d⟩

/-- Reachability of the worker system: zero or more `Step`s. -/
def Reachable (h : RetryHandler) : QState → QState → Prop :=
  Relation.ReflTransGen (Step h)

/-- Every well-formed event record on the main queue carries
`retry_count ≤ max_retries`. -/
def QueueRetryBound (h : RetryHandler) (s : QState) : Prop :=
  ∀ j ∈ s.queue, ∀ e : Event,
    decodeEvent j = Except.ok e → e.retry_count ≤ h.max_retries

/-- A sample event used to instantiate universally quantified theorems. -/
def sampleEvent : Event :=
  { event_id := "11111111-2222-3333-4444-555555555555"
    event_type := .EMAIL_NOTIFICATION
    user_id := "user-1"
    payload := [("to_email", .str "someone@example.com")]
    created_at := "2024-01-01T00:00:00"
    retry_count := 0
    version := "1.0" }

/-! ## Helper lemmas -/

/-- Serialization round trip: validating a dumped event yields it back. -/
theorem decodeEvent_encodeEvent (e : Event) :
    decodeEvent (encodeEvent e) = Except.ok e := by
  rcases e with ⟨eid, ety, uid, pl, cat, rc, ver⟩
  cases ety <;>
    simp [decodeEvent, encodeEvent, jsonLookup, EventType.ofString,
      EventType.value, List.find?]

/-- A positive retry decision is only issued below the retry budget. -/
theorem should_retry_true_imp_lt (h : RetryHandler) (e : Event)
    (err : PyError) (hd : (h.should_retry e err).should_retry = true) :
    e.retry_count < h.max_retries := by
  by_cases hp : classify_failure err = FailureType.permanent
  · simp [RetryHandler.should_retry, hp] at hd
  · by_cases hle : h.max_retries ≤ e.retry_count
    · simp [RetryHandler.should_retry, hp, hle] at hd
    · exact Nat.not_le.mp hle

/-! ## Claim theorems -/

/-- Claim C2: the retry decision is false on a permanent classification
with no attempt-count check; otherwise it is false exactly when
`retry_count >= max_retries`, citing `Max retries (3) exceeded` at the
default budget, and otherwise true with a reason citing the
classification and attempt `retry_count+1` of `max_retries`. -/
theorem should_retry_decision_spec (h : RetryHandler) (e : Event)
    (err : PyError) :
    (classify_failure err = FailureType.permanent →
      (h.should_retry e err).should_retry = false) ∧
    (classify_failure err ≠ FailureType.permanent →
      ((h.should_retry e err).should_retry = false ↔
        h.max_retries ≤ e.retry_count)) ∧
    (classify_failure err ≠ FailureType.permanent → h.max_retries = 3 →
      3 ≤ e.retry_count →
      (h.should_retry e err).reason = "Max retries (3) exceeded") ∧
    (classify_failure err ≠ FailureType.permanent →
      e.retry_count < h.max_retries →
      (h.should_retry e err).should_retry = true ∧
      (h.should_retry e err).reason =
        (classify_failure err).value ++ " failure, retry " ++
          toString (e.retry_count + 1) ++ "/" ++ toString h.max_retries) := by
  refine ⟨?_, ?_, ?_, ?_⟩
  · intro hp
    simp [RetryHandler.should_retry, hp]
  · intro hp
    by_cases hle : h.max_retries ≤ e.retry_count
    · simp [RetryHandler.should_retry, hp, hle]
    · simp [RetryHandler.should_retry, hp, hle]
  · intro hp h3 hle
    rcases h with ⟨m⟩
    simp only at h3
    subst h3
    simp [RetryHandler.should_retry, hp, hle]
    rfl
  · intro hp hlt
    simp [RetryHandler.should_retry, hp, Nat.not_le.mpr hlt]

/-- Witness for C2 at a concrete input: an unknown-kind error with an
empty budget-free message and `retry_count = 1 < 3` yields a positive
decision with the attempt-citing reason. -/
theorem should_retry_decision_spec_witness :
    classify_failure ⟨"RuntimeError", "weird"⟩ ≠ FailureType.permanent ∧
    ({ sampleEvent with retry_count := 1 } : Event).retry_count < 3 ∧
    ((RetryHandler.mk 3).should_retry { sampleEvent with retry_count := 1 }
        ⟨"RuntimeError", "weird"⟩).should_retry = true ∧
    ((RetryHandler.mk 3).should_retry { sampleEvent with retry_count := 1 }
        ⟨"RuntimeError", "weird"⟩).reason =
      (classify_failure ⟨"RuntimeError", "weird"⟩).value ++
        " failure, retry " ++ toString (1 + 1) ++ "/" ++ toString 3 := by
  refine ⟨by decide, by decide, ?_⟩
  exact (should_retry_decision_spec (RetryHandler.mk 3)
    { sampleEvent with retry_count := 1 } ⟨"RuntimeError", "weird"⟩).2.2.2
    (by decide) (by decide)

/-- Claim C3: a transient-indicator substring in the lowercased message
forces a transient classification, whatever the error kind. -/
theorem classify_transient_on_indicator (err : PyError)
    (hind : transient_indicators.any
      (fun ind => strContains (pyLower err.msg) ind) = true) :
    classify_failure err = FailureType.transient := by
  unfold classify_failure
  simp [hind]

/-- Witness for C3: a `ValueError` (a permanent kind) whose message
contains `connection` classifies transient. -/
theorem classify_transient_on_indicator_witness :
    (transient_indicators.any (fun ind =>
      strContains (pyLower "Connection reset by peer") ind) = true) ∧
    classify_failure ⟨"ValueError", "Connection reset by peer"⟩ =
      FailureType.transient :=
  ⟨by decide,
   classify_transient_on_indicator ⟨"ValueError", "Connection reset by peer"⟩
     (by decide)⟩

/-- Claim C4: with no transient indicator but a permanent indicator in
the lowercased message, classification is permanent — the message check
precedes the kind check, so this holds for transient kinds too. -/
theorem classify_permanent_on_indicator (err : PyError)
    (ht : transient_indicators.any
      (fun ind => strContains (pyLower err.msg) ind) = false)
    (hp : permanent_indicators.any
      (fun ind => strContains (pyLower err.msg) ind) = true) :
    classify_failure err = FailureType.permanent := by
  unfold classify_failure
  simp [ht, hp]

/-- Witness for C4: a `TimeoutError` (a transient kind) whose message
contains `invalid` classifies permanent. -/
theorem classify_permanent_on_indicator_witness :
    (transient_indicators.any (fun ind =>
      strContains (pyLower "Invalid payload shape") ind) = false) ∧
    (permanent_indicators.any (fun ind =>
      strContains (pyLower "Invalid payload shape") ind) = true) ∧
    classify_failure ⟨"TimeoutError", "Invalid payload shape"⟩ =
      FailureType.permanent :=
  ⟨by decide, by decide,
   classify_permanent_on_indicator ⟨"TimeoutError", "Invalid payload shape"⟩
     (by decide) (by decide)⟩

/-- Claim C5: `increment_retry` bumps `retry_count` by exactly one and
preserves every other field (the original value is immutable). -/
theorem increment_retry_frame (e : Event) :
    e.increment_retry.retry_count = e.retry_count + 1 ∧
    e.increment_retry.event_id = e.event_id ∧
    e.increment_retry.event_type = e.event_type ∧
    e.increment_retry.user_id = e.user_id ∧
    e.increment_retry.payload = e.payload ∧
    e.increment_retry.created_at = e.created_at ∧
    e.increment_retry.version = e.version :=
  ⟨rfl, rfl, rfl, rfl, rfl, rfl, rfl⟩

/-- Claim C1: on a processing failure the handler follows the single
retry decision — a positive decision enqueues onto the main queue the
failed event with `retry_count` incremented by exactly 1 and leaves the
DLQ alone; a negative decision leaves the main queue alone and appends
to the DLQ the record of the unchanged event with the decision's
reason. -/
theorem handle_failure_spec (h : RetryHandler) (e : Event) (err : PyError)
    (s : QState) :
    ((h.should_retry e err).should_retry = true →
      handle_failure h e err s =
        { queue := encodeEvent { e with retry_count := e.retry_count + 1 } ::
            s.queue,
          dlq := s.dlq }) ∧
    ((h.should_retry e err).should_retry = false →
      handle_failure h e err s =
        { queue := s.queue,
          dlq := encodeDlqEntry e (h.should_retry e err).reason ::
            s.dlq }) := by
  constructor
  · intro hd
    simp [handle_failure, hd, requeue_event, enqueue_event,
      Event.increment_retry]
  · intro hd
    simp [handle_failure, hd, send_to_dlq]

/-- Witness for C1: a transient error below the budget requeues the
event with `retry_count` bumped from 0 to 1. -/
theorem handle_failure_spec_witness :
    (((RetryHandler.mk 3).should_retry sampleEvent
        ⟨"ConnectionError", "connection timeout"⟩).should_retry = true) ∧
    handle_failure (RetryHandler.mk 3) sampleEvent
        ⟨"ConnectionError", "connection timeout"⟩ ⟨[], []⟩ =
      { queue := [encodeEvent { sampleEvent with retry_count := 0 + 1 }],
        dlq := [] } :=
  ⟨by decide,
   (handle_failure_spec (RetryHandler.mk 3) sampleEvent
       ⟨"ConnectionError", "connection timeout"⟩ ⟨[], []⟩).1 (by decide)⟩

/-- Claim C7: dump-then-validate is the identity on every `Event`
(the round trip preserves every field), and dequeue surfaces a
malformed tail record as an error instead of dropping it or returning
none. -/
theorem serialization_round_trip :
    (∀ e : Event, decodeEvent (encodeEvent e) = Except.ok e) ∧
    (∀ (q : List JsonVal) (j : JsonVal) (s : String),
      decodeEvent j = Except.error s →
      dequeue_event (q ++ [j]) = Except.error s) := by
  constructor
  · exact decodeEvent_encodeEvent
  · intro q j s hj
    simp [dequeue_event, List.getLast?_concat, hj]

/-- Witness for C7: dequeueing a queue whose oldest record is a bare
string signals the validation error. -/
theorem serialization_round_trip_witness :
    decodeEvent (JsonVal.str "garbage") =
      Except.error "validation error: record is not an object" ∧
    dequeue_event ([encodeEvent sampleEvent] ++ [JsonVal.str "garbage"]) =
      Except.error "validation error: record is not an object" :=
  ⟨rfl,
   serialization_round_trip.2 [encodeEvent sampleEvent]
     (JsonVal.str "garbage")
     "validation error: record is not an object" rfl⟩

/-- Claim C6: with no destination address in the payload, or SMTP
credentials unset, or the rate limiter denying, `process` returns
successfully without invoking the send; and any error `process` raises
is exactly an error of the send operation itself — the pre-send
branches never raise. -/
theorem process_pre_send_branches (settings : ProcSettings) (rl : RLState)
    (event : Event) (sendOutcome : Except PyError Unit)
    (alertSendOk : Bool) :
    (((jsonLookup event.payload "to_email" = none ∧
        jsonLookup event.payload "email" = none) ∨
      settings.smtp_user = "" ∨ settings.smtp_password = "" ∨
      can_send_email settings rl = false) →
      ∃ r : ProcResult,
        process settings rl event sendOutcome alertSendOk = Except.ok r ∧
        r.sendInvoked = false) ∧
    (∀ x : PyError,
      process settings rl event sendOutcome alertSendOk = Except.error x →
      sendOutcome = Except.error x) := by
  constructor
  · intro hpre
    by_cases h1 : (extract_to_email event).truthy
    · by_cases h2 : settings.smtp_user = "" ∨ settings.smtp_password = ""
      · refine ⟨⟨false, false, rl⟩, ?_, rfl⟩
        simp [process, h1, h2]
      · by_cases h3 : can_send_email settings rl
        · exfalso
          rcases hpre with ⟨ha, hb⟩ | hu | hpw | hcs
          · have hnull : extract_to_email event = JsonVal.null := by
              simp [extract_to_email, payloadGet, ha, hb, JsonVal.truthy]
            rw [hnull] at h1
            exact absurd h1 (by simp [JsonVal.truthy])
          · exact h2 (Or.inl hu)
          · exact h2 (Or.inr hpw)
          · simp [h3] at hcs
        · refine ⟨⟨false, (check_and_alert settings rl alertSendOk).notifyInvoked,
            (check_and_alert settings rl alertSendOk).state⟩, ?_, rfl⟩
          simp [process, h1, h2, h3]
    · refine ⟨⟨false, false, rl⟩, ?_, rfl⟩
      simp [process, h1]
  · intro x hx
    by_cases h1 : (extract_to_email event).truthy
    · by_cases h2 : settings.smtp_user = "" ∨ settings.smtp_password = ""
      · simp [process, h1, h2] at hx
      · by_cases h3 : can_send_email settings rl
        · cases hso : sendOutcome with
          | error e2 =>
            rw [hso] at hx
            simp [process, h1, h2, h3] at hx
            rw [hx]
          | ok u =>
            rw [hso] at hx
            simp [process, h1, h2, h3] at hx
        · simp [process, h1, h2, h3] at hx
    · simp [process, h1] at hx

/-- Witness for C6: SMTP credentials unset, so `process` succeeds with
no send invoked. -/
theorem process_pre_send_branches_witness :
    ((jsonLookup sampleEvent.payload "to_email" = none ∧
        jsonLookup sampleEvent.payload "email" = none) ∨
      (ProcSettings.mk "" "" 20 "").smtp_user = "" ∨
      (ProcSettings.mk "" "" 20 "").smtp_password = "" ∨
      can_send_email (ProcSettings.mk "" "" 20 "") ⟨0, false⟩ = false) ∧
    (∃ r : ProcResult,
      process (ProcSettings.mk "" "" 20 "") ⟨0, false⟩ sampleEvent
        (Except.ok ()) true = Except.ok r ∧
      r.sendInvoked = false) :=
  ⟨Or.inr (Or.inl rfl),
   (process_pre_send_branches (ProcSettings.mk "" "" 20 "") ⟨0, false⟩
     sampleEvent (Except.ok ()) true).1 (Or.inr (Or.inl rfl))⟩

/-- Claim C8: once the alerted flag is set, `check_and_alert` never
invokes the notify side effect again in the same run (whatever the
counter), so at the ceiling the first rate-limited event alerts exactly
once and a second rate-limited event in the same run does not alert. -/
theorem alert_at_most_once :
    (∀ (settings : ProcSettings) (st : RLState) (ok : Bool),
      st.alert_sent_today = true →
      check_and_alert settings st ok =
        { notifyInvoked := false, state := st }) ∧
    (∀ (settings : ProcSettings) (rl : RLState) (e₁ e₂ : Event)
       (so₁ so₂ : Except PyError Unit),
      rl.alert_sent_today = false →
      settings.daily_email_limit ≤ rl.count →
      settings.alert_email ≠ "" →
      (extract_to_email e₁).truthy = true →
      (extract_to_email e₂).truthy = true →
      settings.smtp_user ≠ "" → settings.smtp_password ≠ "" →
      process settings rl e₁ so₁ true =
        Except.ok
          { sendInvoked := false, alertNotifyInvoked := true,
            rl := { rl with alert_sent_today := true } } ∧
      process settings { rl with alert_sent_today := true } e₂ so₂ true =
        Except.ok
          { sendInvoked := false, alertNotifyInvoked := false,
            rl := { rl with alert_sent_today := true } }) := by
  constructor
  · intro settings st ok hflag
    simp [check_and_alert, hflag]
  · intro settings rl e₁ e₂ so₁ so₂ hflag hceil halert h1 h2 hsu hsp
    have hcs : can_send_email settings rl = false := by
      simp only [can_send_email, decide_eq_false_iff_not, Nat.not_lt]
      exact hceil
    have hcs' : can_send_email settings
        { rl with alert_sent_today := true } = false := by
      simp only [can_send_email, decide_eq_false_iff_not, Nat.not_lt]
      exact hceil
    constructor
    · simp [process, h1, hsu, hsp, hcs, check_and_alert, hflag, hceil, halert]
    · simp [process, h2, hsu, hsp, hcs', check_and_alert]

/-- Witness for C8: ceiling 20, counter at 20; the first event alerts
once and sets the flag, the second event does not alert. -/
theorem alert_at_most_once_witness :
    process (ProcSettings.mk "u" "p" 20 "admin@example.com") ⟨20, false⟩
        sampleEvent (Except.ok ()) true =
      Except.ok
        { sendInvoked := false, alertNotifyInvoked := true,
          rl := ⟨20, true⟩ } ∧
    process (ProcSettings.mk "u" "p" 20 "admin@example.com") ⟨20, true⟩
        sampleEvent (Except.ok ()) true =
      Except.ok
        { sendInvoked := false, alertNotifyInvoked := false,
          rl := ⟨20, true⟩ } :=
  alert_at_most_once.2 (ProcSettings.mk "u" "p" 20 "admin@example.com")
    ⟨20, false⟩ sampleEvent sampleEvent (Except.ok ()) (Except.ok ())
    rfl (by decide) (by decide) (by decide) (by decide)
    (by decide) (by decide)

/-- Claim C9: an error raised by the dequeue call itself makes the loop
log, sleep for the fixed 1-second delay and continue; a run of
arbitrarily many such errors never exits the loop. -/
theorem dequeue_errors_never_fatal :
    (∀ x : PyError,
      consume_step true (DequeueOutcome.transport_error x) =
        { logged_error := true, sleep_seconds := 1, exits := false }) ∧
    (∀ outs : List DequeueOutcome,
      (∀ o ∈ outs, ∃ x, o = DequeueOutcome.transport_error x) →
      ∀ eff ∈ consume_run outs,
        eff =
          { logged_error := true, sleep_seconds := 1,
            exits := false }) := by
  constructor
  · intro x
    rfl
  · intro outs hall eff heff
    simp only [consume_run, List.mem_map] at heff
    rcases heff with ⟨o, ho, rfl⟩
    rcases hall o ho with ⟨x, rfl⟩
    rfl

/-- Witness for C9: two consecutive transport errors each log, sleep 1
and keep the loop alive. -/
theorem dequeue_errors_never_fatal_witness :
    (∀ o ∈ [DequeueOutcome.transport_error ⟨"ConnectionError", "down"⟩,
            DequeueOutcome.transport_error ⟨"OSError", "broken pipe"⟩],
      ∃ x, o = DequeueOutcome.transport_error x) ∧
    (∀ eff ∈ consume_run
        [DequeueOutcome.transport_error ⟨"ConnectionError", "down"⟩,
         DequeueOutcome.transport_error ⟨"OSError", "broken pipe"⟩],
      eff = { logged_error := true, sleep_seconds := 1, exits := false }) :=
  by
  have hall : ∀ o ∈ [DequeueOutcome.transport_error ⟨"ConnectionError", "down"⟩,
      DequeueOutcome.transport_error ⟨"OSError", "broken pipe"⟩],
      ∃ x, o = DequeueOutcome.transport_error x := by
    intro o ho
    rcases List.mem_cons.mp ho with rfl | ho'
    · exact ⟨⟨"ConnectionError", "down"⟩, rfl⟩
    · rcases List.mem_cons.mp ho' with rfl | ho''
      · exact ⟨⟨"OSError", "broken pipe"⟩, rfl⟩
      · cases ho''
  exact ⟨hall, dequeue_errors_never_fatal.2 _ hall⟩

/-- One worker step preserves the retry-count bound on main-queue
records: the only step that adds a non-fresh record is a requeue, which
requires a positive retry decision, hence `retry_count < max_retries`
before the increment. -/
theorem step_preserves_bound {h : RetryHandler} {s s' : QState}
    (hs : Step h s s') (hinv : QueueRetryBound h s) : QueueRetryBound h s' := by
  cases hs with
  | dequeue_timeout s => exact hinv
  | produce s e h0 =>
    intro j hj e' hd
    simp only [enqueue_event] at hj
    rcases List.mem_cons.mp hj with rfl | hj'
    · rw [decodeEvent_encodeEvent] at hd
      cases hd
      simp [h0]
    · exact hinv j hj' e' hd
  | process_ok rest j e d hdec =>
    intro j' hj' e' hd
    exact hinv j' (List.mem_append_left _ hj') e' hd
  | dequeue_malformed rest j s d hdec =>
    intro j' hj' e' hd
    exact hinv j' (List.mem_append_left _ hj') e' hd
  | process_failed rest j e err d hdec =>
    by_cases hret : (h.should_retry e err).should_retry = true
    · have hlt : e.retry_count < h.max_retries :=
        should_retry_true_imp_lt h e err hret
      intro j' hj' e' hd
      simp only [handle_failure, hret, if_true, requeue_event,
        enqueue_event] at hj'
      rcases List.mem_cons.mp hj' with rfl | hj''
      · rw [decodeEvent_encodeEvent] at hd
        cases hd
        simpa [Event.increment_retry] using hlt
      · exact hinv j' (List.mem_append_left _ hj'') e' hd
    · intro j' hj' e' hd
      simp only [handle_failure, hret, if_false] at hj'
      exact hinv j' (List.mem_append_left _ hj') e' hd

/-- Claim C10: from a state whose main-queue records all carry
`retry_count = 0`, every reachable state has only main-queue records
with `retry_count ≤ max_retries`. -/
theorem queue_retry_count_bounded (h : RetryHandler) (s₀ s : QState)
    (hinit : ∀ j ∈ s₀.queue, ∀ e : Event,
      decodeEvent j = Except.ok e → e.retry_count = 0)
    (hreach : Reachable h s₀ s) :
    ∀ j ∈ s.queue, ∀ e : Event,
      decodeEvent j = Except.ok e → e.retry_count ≤ h.max_retries := by
  have h0 : QueueRetryBound h s₀ := by
    intro j hj e hd
    rw [hinit j hj e hd]
    exact Nat.zero_le _
  have : QueueRetryBound h s := by
    induction hreach with
    | refl => exact h0
    | tail hab hbc ih => exact step_preserves_bound hbc ih
  exact this

/-- Witness for C10: a singleton fresh queue, one failing transient
attempt later, still satisfies the bound. -/
theorem queue_retry_count_bounded_witness :
    (∀ j ∈ (QState.mk [encodeEvent sampleEvent] []).queue, ∀ e : Event,
      decodeEvent j = Except.ok e → e.retry_count = 0) ∧
    (∀ j ∈ (QState.mk [encodeEvent sampleEvent] []).queue, ∀ e : Event,
      decodeEvent j = Except.ok e →
      e.retry_count ≤ (RetryHandler.mk 3).max_retries) := by
  have hinit : ∀ j ∈ (QState.mk [encodeEvent sampleEvent] []).queue,
      ∀ e : Event, decodeEvent j = Except.ok e → e.retry_count = 0 := by
    intro j hj e hd
    rcases List.mem_singleton.mp hj with rfl
    rw [decodeEvent_encodeEvent] at hd
    cases hd
    rfl
  exact ⟨hinit,
    queue_retry_count_bounded (RetryHandler.mk 3) _ _ hinit
      Relation.ReflTransGen.refl⟩

end EventDriven
